import Mathlib

/-!
Shallow embedding of mKBI.py (mini Kernel Bound Intelligence): the skill
registry loader, the static-analysis gate, the sandboxed script executor and
the execute_task pipeline, together with theorems about their error handling
and result invariants. External effects (LLM responses, the filesystem, what
subprocess.run does) are passed in explicitly as environment data; everything
else mirrors the Python source line by line.
-/

namespace MKBI

/-- One chat message of a skill record, a `{role, content}` pair. -/
structure Message where
  role : String
  content : String
deriving DecidableEq, Repr

/-- The `meta` object of a skill record; every key may be absent, so each
field is an `Option`. -/
structure SkillMeta where
  executor : Option String
  file_extension : Option String
  static_analysis : Option String
deriving DecidableEq, Repr

/-- A raw skill record as parsed from a .json file; the three top-level keys
may each be absent. -/
structure SkillFile where
  meta : Option SkillMeta
  interpreter : Option (List Message)
  fabricator : Option (List Message)
deriving DecidableEq, Repr

/-- A loaded skill: `load_skills` replaces absent top-level keys by defaults
(`data.get` calls with default arguments in the source). -/
structure Skill where
  meta : SkillMeta
  interpreter : List Message
  fabricator : List Message
deriving DecidableEq, Repr

/-- The per-record part of `load_skills`: `data.get("meta", ...)` with an
empty-dict default, `data.get("interpreter", [])`, `data.get("fabricator", [])`. -/
def parseSkillFile (d : SkillFile) : Skill :=
  { meta := d.meta.getD ⟨none, none, none⟩
    interpreter := d.interpreter.getD []
    fabricator := d.fabricator.getD [] }

/-- Result of `load_skills`: the process exits (`sys.exit`) or a registry is
returned. -/
inductive LoadResult where
  | exit (code : Nat)
  | ok (skills : List (String × Skill))
deriving DecidableEq, Repr

/-- `load_skills`. The directory state is passed in as `listing`: `none` when
the skills directory does not exist, otherwise the sorted (filename stem,
parsed record) pairs of its .json files. Missing directory and zero records
both reach `sys.exit(1)`. -/
def load_skills (listing : Option (List (String × SkillFile))) : LoadResult :=
  match listing with
  | none => .exit 1
  | some files =>
      let skills := files.map (fun p => (p.1, parseSkillFile p.2))
      if skills = [] then .exit 1 else .ok skills

/-- Python `str.strip()`: drop leading and trailing whitespace. Implemented
by structural recursion on the character list so that it evaluates inside the
kernel. -/
def pyStrip (s : String) : String :=
  ⟨((s.data.dropWhile Char.isWhitespace).reverse.dropWhile Char.isWhitespace).reverse⟩

/-- `_STATIC_ANALYSIS_CMDS`: tool identifier to command template. -/
def _STATIC_ANALYSIS_CMDS : List (String × List String) :=
  [("shellcheck", ["shellcheck", "{script}"])]

/-- Environment behavior for one `_run_static_analysis` call: whether
`shutil.which` finds the binary, and what `subprocess.run` on the tool
returns. -/
structure AnalysisEnv where
  whichFound : Bool
  toolReturncode : Int
  toolStdout : String
  toolStderr : String
deriving DecidableEq, Repr

/-- `_run_static_analysis(tool, script_path)`: trivially passes when no tool
is set (Python truthiness: `None` or the empty string); passes with a warning
when the tool identifier is unknown or its binary is not on PATH; otherwise
runs the tool and passes iff its exit status is zero, attaching the stripped
combined output. -/
def _run_static_analysis (tool : Option String) (script_path : String)
    (env : AnalysisEnv) : Bool × String :=
  if tool = none ∨ tool = some "" then (true, "")
  else
    let t := tool.getD ""
    match _STATIC_ANALYSIS_CMDS.lookup t with
    | none => (true, "[mKBI] Unknown static analysis tool \x27" ++ t ++ "\x27 — skipping.")
    | some cmd_template =>
        let cmd := cmd_template.map (fun part => part.replace "{script}" script_path)
        let binary := cmd.headD ""
        if env.whichFound = false then
          (true, "[mKBI] " ++ binary ++ " not found on PATH — skipping static analysis.")
        else
          (env.toolReturncode == 0, pyStrip (env.toolStdout ++ env.toolStderr))

/-- `_EXECUTOR_CMDS`: executor identifier to command template. -/
def _EXECUTOR_CMDS : List (String × List String) :=
  [("bash", ["bash", "{script}"]),
   ("python3", ["python3", "{script}"]),
   ("python", ["python", "{script}"]),
   ("node", ["node", "{script}"]),
   ("ruby", ["ruby", "{script}"]),
   ("perl", ["perl", "{script}"])]

/-- The outcome dict returned by `_execute_script`. -/
structure ProcOutcome where
  stdout : String
  stderr : String
  returncode : Option Int
  timed_out : Bool
deriving DecidableEq, Repr

/-- What `subprocess.run` does for one executor invocation: natural
completion with captured text output and exit code, or `TimeoutExpired`
carrying the (possibly absent) output buffered before the kill, given here
already decoded with replacement of undecodable bytes. -/
inductive RunBehavior where
  | completed (stdout stderr : String) (returncode : Int)
  | timedOutWith (stdout stderr : Option String)
deriving DecidableEq, Repr

/-- `_execute_script(executor, script_path, timeout)`: unknown executors get
the synthetic outcome with returncode -1; otherwise the subprocess either
completes or times out as described by `run`. -/
def _execute_script (executor : String) (script_path : String) (timeout : Nat)
    (run : RunBehavior) : ProcOutcome :=
  match _EXECUTOR_CMDS.lookup executor with
  | none =>
      { stdout := "", stderr := "Unknown executor: " ++ executor,
        returncode := some (-1), timed_out := false }
  | some _cmd_template =>
      match run with
      | .completed out err rc =>
          { stdout := out, stderr := err, returncode := some rc, timed_out := false }
      | .timedOutWith out err =>
          { stdout := out.getD "", stderr := err.getD "",
            returncode := none, timed_out := true }

/-- The result dict built by `execute_task`. -/
structure PipelineResult where
  skill : String
  interpreter_response : String
  fabricator_response : String
  script : String
  shellcheck_passed : Bool
  shellcheck_output : String
  execution : Option ProcOutcome
  error : Option String
deriving DecidableEq, Repr

/-- `execute_task` returns the result dict, or a bare string when
`output_only` is set. -/
inductive TaskReturn where
  | dict (r : PipelineResult)
  | str (s : String)
deriving DecidableEq, Repr

/-- Filesystem events of one `execute_task` run: creation of the temporary
script file (with its suffix) and its deletion in the `finally` block. -/
inductive Ev where
  | tempCreated (suffix : String)
  | tempDeleted
deriving DecidableEq, Repr

/-- Environment of one `execute_task` run: the two model responses, the temp
file path chosen by `tempfile`, and the behavior of the analysis tool and of
the executor subprocess. -/
structure TaskEnv where
  interpResponse : String
  fabResponse : String
  tmpPath : String
  analysisEnv : AnalysisEnv
  runBehavior : RunBehavior
deriving DecidableEq, Repr

/-- How a Python f-string renders an optional string (`str(None) = "None"`). -/
def pyStr : Option String → String
  | none => "None"
  | some s => s

/-- `LLMService.execute_task(user_request, skill, output_only)`, after the
skill has been resolved: `meta.get` defaulting, the empty-script abort, the
static-analysis stage over the temp file, the abort on failing analysis, the
execution stage and the timeout error, the `finally` deletion of the temp
file, and the `output_only` projection at each return point. -/
def execute_task (skill_name : String) (meta : SkillMeta) (exec_timeout : Nat)
    (env : TaskEnv) (output_only : Bool) : TaskReturn × List Ev :=
  let executor := meta.executor.getD "bash"
  let extension := meta.file_extension.getD ".sh"
  let analysis_tool := meta.static_analysis
  let result0 : PipelineResult :=
    { skill := skill_name, interpreter_response := env.interpResponse,
      fabricator_response := env.fabResponse, script := env.fabResponse,
      shellcheck_passed := false, shellcheck_output := "",
      execution := none, error := none }
  if env.fabResponse = "" then
    let result := { result0 with error := some "Fabricator returned an empty script." }
    ((if output_only then TaskReturn.str "Fabricator returned an empty script."
      else TaskReturn.dict result), [])
  else
    let sc := _run_static_analysis analysis_tool env.tmpPath env.analysisEnv
    let result1 := { result0 with shellcheck_passed := sc.1, shellcheck_output := sc.2 }
    if sc.1 = false then
      let err := pyStr analysis_tool ++ " reported errors — execution aborted."
      let result := { result1 with error := some err }
      ((if output_only then TaskReturn.str err else TaskReturn.dict result),
       [Ev.tempCreated extension, Ev.tempDeleted])
    else
      let exec_result := _execute_script executor env.tmpPath exec_timeout env.runBehavior
      let result2 := { result1 with execution := some exec_result }
      let result3 :=
        if exec_result.timed_out = true then
          { result2 with
              error := some ("Execution timed out after " ++ toString exec_timeout ++ "s.") }
        else result2
      let ret :=
        if output_only then
          match result3.error with
          | some e =>
              if e = "" then
                (match result3.execution with
                 | some ex => TaskReturn.str ex.stdout
                 | none => TaskReturn.str "")
              else TaskReturn.str e
          | none =>
              (match result3.execution with
               | some ex => TaskReturn.str ex.stdout
               | none => TaskReturn.str "")
        else TaskReturn.dict result3
      (ret, [Ev.tempCreated extension, Ev.tempDeleted])

/-- One row of `list_skills`. -/
structure SkillInfo where
  name : String
  executor : String
  analysis : Option String
deriving DecidableEq, Repr

/-- `LLMService.list_skills`. -/
def list_skills (skills : List (String × Skill)) : List SkillInfo :=
  skills.map (fun p =>
    { name := p.1, executor := p.2.meta.executor.getD "unknown",
      analysis := p.2.meta.static_analysis })

/-- Result of `LLMService.reload_skills`: either the process exits inside
`load_skills` (so the previous registry is never consulted again), or the
registry field is rebound and the new listing returned. -/
inductive ReloadOutcome where
  | processExit (code : Nat)
  | ok (newSkills : List (String × Skill)) (infos : List SkillInfo)
deriving DecidableEq, Repr

/-- `LLMService.reload_skills`: rebuild the registry from the directory.
`sys.exit` inside `load_skills` terminates the process before the registry
field is reassigned. -/
def reload_skills (listing : Option (List (String × SkillFile))) : ReloadOutcome :=
  match load_skills listing with
  | .exit c => .processExit c
  | .ok skills => .ok skills (list_skills skills)

/-! ### Branch equations for execute_task -/

/-- Empty fabricator response: the run aborts before the temp file exists. -/
theorem execute_task_empty_fab (sn : String) (m : SkillMeta) (tmo : Nat)
    (env : TaskEnv) (oo : Bool) (h : env.fabResponse = "") :
    execute_task sn m tmo env oo =
      ((if oo then TaskReturn.str "Fabricator returned an empty script."
        else TaskReturn.dict
          { skill := sn, interpreter_response := env.interpResponse,
            fabricator_response := env.fabResponse, script := env.fabResponse,
            shellcheck_passed := false, shellcheck_output := "",
            execution := none,
            error := some "Fabricator returned an empty script." }), []) := by
  simp only [execute_task, h, if_pos rfl, reduceIte]

/-- Failing static analysis: the run aborts after creating and deleting the
temp file, with the tool named in the error. -/
theorem execute_task_analysis_fail (sn : String) (m : SkillMeta) (tmo : Nat)
    (env : TaskEnv) (oo : Bool) (h1 : ¬ env.fabResponse = "")
    (h2 : (_run_static_analysis m.static_analysis env.tmpPath env.analysisEnv).1 = false) :
    execute_task sn m tmo env oo =
      ((if oo
        then TaskReturn.str
          (pyStr m.static_analysis ++ " reported errors — execution aborted.")
        else TaskReturn.dict
          { skill := sn, interpreter_response := env.interpResponse,
            fabricator_response := env.fabResponse, script := env.fabResponse,
            shellcheck_passed := false,
            shellcheck_output :=
              (_run_static_analysis m.static_analysis env.tmpPath env.analysisEnv).2,
            execution := none,
            error := some
              (pyStr m.static_analysis ++ " reported errors — execution aborted.") }),
       [Ev.tempCreated (m.file_extension.getD ".sh"), Ev.tempDeleted]) := by
  simp only [execute_task, h1, h2, if_false, reduceIte]

/-- Passing static analysis, dict-shaped return: the executor runs and the
error field is set exactly when the execution timed out. -/
theorem execute_task_exec_dict (sn : String) (m : SkillMeta) (tmo : Nat)
    (env : TaskEnv) (h1 : ¬ env.fabResponse = "")
    (h2 : (_run_static_analysis m.static_analysis env.tmpPath env.analysisEnv).1 = true) :
    execute_task sn m tmo env false =
      (TaskReturn.dict
        { skill := sn, interpreter_response := env.interpResponse,
          fabricator_response := env.fabResponse, script := env.fabResponse,
          shellcheck_passed := true,
          shellcheck_output :=
            (_run_static_analysis m.static_analysis env.tmpPath env.analysisEnv).2,
          execution :=
            some (_execute_script (m.executor.getD "bash") env.tmpPath tmo env.runBehavior),
          error :=
            if (_execute_script (m.executor.getD "bash") env.tmpPath tmo
                env.runBehavior).timed_out = true
            then some ("Execution timed out after " ++ toString tmo ++ "s.")
            else none },
       [Ev.tempCreated (m.file_extension.getD ".sh"), Ev.tempDeleted]) := by
  by_cases ht :
      (_execute_script (m.executor.getD "bash") env.tmpPath tmo env.runBehavior).timed_out = true <;>
    simp only [execute_task, h1, h2, ht, if_false, if_true, reduceIte, Bool.true_eq_false,
      Bool.false_eq_true]

/-- The temp-file events of a run: none before the file is created, otherwise
creation followed by deletion in the finally block. -/
theorem execute_task_events (sn : String) (m : SkillMeta) (tmo : Nat)
    (env : TaskEnv) (oo : Bool) :
    (execute_task sn m tmo env oo).2 = [] ∨
    (execute_task sn m tmo env oo).2 =
      [Ev.tempCreated (m.file_extension.getD ".sh"), Ev.tempDeleted] := by
  by_cases h1 : env.fabResponse = ""
  · left
    rw [execute_task_empty_fab sn m tmo env oo h1]
  · by_cases h2 :
        (_run_static_analysis m.static_analysis env.tmpPath env.analysisEnv).1 = false
    · right
      rw [execute_task_analysis_fail sn m tmo env oo h1 h2]
    · right
      have h2' :
          (_run_static_analysis m.static_analysis env.tmpPath env.analysisEnv).1 = true := by
        revert h2; cases (_run_static_analysis m.static_analysis env.tmpPath env.analysisEnv).1 <;>
          simp
      simp only [execute_task, h1, h2', if_false, reduceIte, Bool.true_eq_false, if_neg,
        not_false_eq_true]

/-! ### Sample inputs used by concrete instantiations -/

/-- Analysis environment in which the tool binary exists and reports success. -/
def sampleAnalysisOk : AnalysisEnv := ⟨true, 0, "", ""⟩

/-- A bash skill meta with no static analysis configured. -/
def metaBash : SkillMeta := ⟨some "bash", some ".sh", none⟩

/-- A run in which both model calls answer and the script prints and exits 0. -/
def envOk : TaskEnv := ⟨"plan", "echo hi", "/tmp/t.sh", sampleAnalysisOk,
  RunBehavior.completed "hi\n" "" 0⟩

/-- A run whose fabricator response is empty. -/
def envEmptyFab : TaskEnv := ⟨"plan", "", "/tmp/t.sh", sampleAnalysisOk,
  RunBehavior.completed "" "" 0⟩

/-- A well-formed one-record skill file. -/
def sampleSkillFile : SkillFile := ⟨some ⟨some "bash", some ".sh", none⟩, some [], some []⟩

/-- Key-lookup helper: the only static-analysis template is shellcheck. -/
theorem static_lookup_eq (t : String) (c : List String)
    (h : _STATIC_ANALYSIS_CMDS.lookup t = some c) :
    t = "shellcheck" ∧ c = ["shellcheck", "{script}"] := by
  by_cases ht : t = "shellcheck"
  · subst ht
    simp only [_STATIC_ANALYSIS_CMDS, List.lookup] at h
    rw [show (("shellcheck" == "shellcheck") = true) from rfl] at h
    simp only [Option.some.injEq] at h
    exact ⟨rfl, h.symm⟩
  · exfalso
    have hb : ("shellcheck" == t) = false := by
      rw [beq_eq_false_iff_ne]
      exact fun hc => ht hc.symm
    simp only [_STATIC_ANALYSIS_CMDS, List.lookup, beq_eq_false_iff_ne, ne_eq] at h
    rw [show ((t == "shellcheck") = false) from by
      rw [beq_eq_false_iff_ne]; exact ht] at h
    simp at h

/-! ### Claim theorems -/

/-- C3: a script execution that exceeds the timeout yields an outcome with
timedOut = true, exitCode = null, and whatever stdout/stderr was buffered
before the kill preserved in the outcome; and in every outcome whatsoever,
timedOut = true implies exitCode = null. -/
theorem C3_timeout_outcome :
    (∀ (e p : String) (t : Nat) (c : List String) (out err : Option String),
        _EXECUTOR_CMDS.lookup e = some c →
        _execute_script e p t (RunBehavior.timedOutWith out err) =
          { stdout := out.getD "", stderr := err.getD "", returncode := none,
            timed_out := true }) ∧
    (∀ (e p : String) (t : Nat) (run : RunBehavior),
        (_execute_script e p t run).timed_out = true →
        (_execute_script e p t run).returncode = none) := by
  constructor
  · intro e p t c out err h
    simp [_execute_script, h]
  · intro e p t run
    unfold _execute_script
    cases _EXECUTOR_CMDS.lookup e <;> cases run <;> simp

/-- Witness for C3: a timed-out bash run with buffered partial stdout. -/
theorem C3_timeout_outcome_witness :
    _execute_script "bash" "/tmp/t.sh" 5 (RunBehavior.timedOutWith (some "partial") none) =
      { stdout := "partial", stderr := "", returncode := none, timed_out := true } :=
  C3_timeout_outcome.1 "bash" "/tmp/t.sh" 5 ["bash", "{script}"] (some "partial") none rfl

/-- C5: an empty Fabricator response aborts the run with the empty-script
error, execution stays null, the analysis fields keep their initial values
and no temp file is ever created (so analysis and execution do not run), and
with output_only the returned string equals the error text. -/
theorem C5_empty_fabricator (sn : String) (m : SkillMeta) (tmo : Nat) (env : TaskEnv)
    (h : env.fabResponse = "") :
    execute_task sn m tmo env false =
      (TaskReturn.dict
        { skill := sn, interpreter_response := env.interpResponse,
          fabricator_response := env.fabResponse, script := env.fabResponse,
          shellcheck_passed := false, shellcheck_output := "",
          execution := none,
          error := some "Fabricator returned an empty script." }, []) ∧
    (execute_task sn m tmo env true).1 =
      TaskReturn.str "Fabricator returned an empty script." := by
  refine ⟨?_, ?_⟩
  · rw [execute_task_empty_fab sn m tmo env false h]
    rfl
  · rw [execute_task_empty_fab sn m tmo env true h]
    rfl

/-- Witness for C5 at a concrete empty-fabricator run. -/
theorem C5_empty_fabricator_witness :
    execute_task "bash" metaBash 30 envEmptyFab false =
      (TaskReturn.dict
        { skill := "bash", interpreter_response := "plan",
          fabricator_response := "", script := "",
          shellcheck_passed := false, shellcheck_output := "",
          execution := none,
          error := some "Fabricator returned an empty script." }, []) ∧
    (execute_task "bash" metaBash 30 envEmptyFab true).1 =
      TaskReturn.str "Fabricator returned an empty script." :=
  C5_empty_fabricator "bash" metaBash 30 envEmptyFab rfl

/-- C6: the static-analysis stage passes trivially with empty output when no
tool is configured (None or the empty string); passes with a warning when the
tool identifier is unknown or its binary is not on PATH; and when the tool is
actually invoked the stage passes exactly when the tool exits zero, so a
nonzero exit is a failing analysis and the two warning cases are the only
advisory passes. -/
theorem C6_analysis_advisory :
    (∀ (p : String) (env : AnalysisEnv), _run_static_analysis none p env = (true, "")) ∧
    (∀ (p : String) (env : AnalysisEnv), _run_static_analysis (some "") p env = (true, "")) ∧
    (∀ (t p : String) (env : AnalysisEnv), ¬ t = "" →
        _STATIC_ANALYSIS_CMDS.lookup t = none →
        _run_static_analysis (some t) p env =
          (true, "[mKBI] Unknown static analysis tool \x27" ++ t ++ "\x27 — skipping.")) ∧
    (∀ (t p : String) (c : List String) (env : AnalysisEnv),
        _STATIC_ANALYSIS_CMDS.lookup t = some c → env.whichFound = false →
        _run_static_analysis (some t) p env =
          (true, "[mKBI] " ++ (c.map (fun part => part.replace "{script}" p)).headD "" ++
            " not found on PATH — skipping static analysis.")) ∧
    (∀ (t p : String) (c : List String) (env : AnalysisEnv),
        _STATIC_ANALYSIS_CMDS.lookup t = some c → env.whichFound = true →
        ((_run_static_analysis (some t) p env).1 = true ↔ env.toolReturncode = 0)) := by
  refine ⟨?_, ?_, ?_, ?_, ?_⟩
  · intro p env; rfl
  · intro p env; rfl
  · intro t p env ht hl
    simp [_run_static_analysis, ht, hl]
  · intro t p c env hl hw
    obtain ⟨ht, hc⟩ := static_lookup_eq t c hl
    subst ht; subst hc
    simp [_run_static_analysis, hw, hl]
  · intro t p c env hl hw
    obtain ⟨ht, hc⟩ := static_lookup_eq t c hl
    subst ht
    simp [_run_static_analysis, hw, hl, beq_iff_eq]

/-- Witness for C6: the unknown-tool identifier "pylint" passes with the
warning diagnostic. -/
theorem C6_analysis_advisory_witness :
    ¬ "pylint" = "" ∧
    _run_static_analysis (some "pylint") "/tmp/t.sh" sampleAnalysisOk =
      (true, "[mKBI] Unknown static analysis tool \x27pylint\x27 — skipping.") :=
  ⟨by decide, C6_analysis_advisory.2.2.1 "pylint" "/tmp/t.sh" sampleAnalysisOk (by decide) rfl⟩

/-- C7: an executor identifier with no command template makes _execute_script
return (not throw) the synthetic outcome: exitCode -1, timedOut false, empty
stdout, and a diagnostic naming the executor in stderr. -/
theorem C7_unknown_executor_sentinel (e p : String) (t : Nat) (run : RunBehavior)
    (h : _EXECUTOR_CMDS.lookup e = none) :
    _execute_script e p t run =
      { stdout := "", stderr := "Unknown executor: " ++ e,
        returncode := some (-1), timed_out := false } := by
  simp [_execute_script, h]

/-- Witness for C7 at the unknown executor "cobol". -/
theorem C7_unknown_executor_sentinel_witness :
    _execute_script "cobol" "/tmp/t.sh" 30 (RunBehavior.completed "" "" 0) =
      { stdout := "", stderr := "Unknown executor: cobol",
        returncode := some (-1), timed_out := false } :=
  C7_unknown_executor_sentinel "cobol" "/tmp/t.sh" 30 (RunBehavior.completed "" "" 0) rfl

/-- C8: loading a directory with at least one (valid, parsed) record yields a
registry keyed exactly by the record filename stems; a missing directory or
one with zero records exits the process (the fatal configuration error)
instead of yielding an empty registry. -/
theorem C8_load_skills_registry :
    (∀ files : List (String × SkillFile), ¬ files = [] →
        load_skills (some files) =
          LoadResult.ok (files.map (fun p => (p.1, parseSkillFile p.2))) ∧
        (files.map (fun p => (p.1, parseSkillFile p.2))).map Prod.fst =
          files.map Prod.fst) ∧
    load_skills none = LoadResult.exit 1 ∧
    load_skills (some []) = LoadResult.exit 1 := by
  refine ⟨?_, rfl, rfl⟩
  intro files h
  refine ⟨?_, ?_⟩
  · simp [load_skills, h]
  · simp [List.map_map, Function.comp]

/-- Witness for C8 at a one-record directory. -/
theorem C8_load_skills_registry_witness :
    load_skills (some [("echo", sampleSkillFile)]) =
      LoadResult.ok [("echo", parseSkillFile sampleSkillFile)] ∧
    [("echo", parseSkillFile sampleSkillFile)].map Prod.fst =
      [("echo", sampleSkillFile)].map Prod.fst :=
  C8_load_skills_registry.1 [("echo", sampleSkillFile)] (List.cons_ne_nil _ _)

/-- C9: a runtime reload against a missing skills directory or one with zero
.json files terminates the whole process with exit code 1; no recoverable
error is raised and no registry state survives the call. -/
theorem C9_reload_missing_dir_exits (listing : Option (List (String × SkillFile)))
    (h : listing = none ∨ listing = some []) :
    reload_skills listing = ReloadOutcome.processExit 1 := by
  rcases h with h | h <;> subst h <;> rfl

/-- Witness for C9 at a missing directory. -/
theorem C9_reload_missing_dir_exits_witness :
    reload_skills none = ReloadOutcome.processExit 1 :=
  C9_reload_missing_dir_exits none (Or.inl rfl)

/-- C10: a skill meta with every field absent behaves under execute_task
exactly like one declaring executor "bash", file_extension ".sh" and no
static-analysis tool; and load_skills fills an absent record body with an
empty meta and empty histories. -/
theorem C10_meta_defaults :
    (∀ (sn : String) (tmo : Nat) (env : TaskEnv) (oo : Bool),
        execute_task sn ⟨none, none, none⟩ tmo env oo =
          execute_task sn ⟨some "bash", some ".sh", none⟩ tmo env oo) ∧
    parseSkillFile ⟨none, none, none⟩ =
      { meta := ⟨none, none, none⟩, interpreter := [], fabricator := [] } :=
  ⟨fun _sn _tmo _env _oo => rfl, rfl⟩

/-- A run whose script exits nonzero without timing out. -/
def envExecFail : TaskEnv := ⟨"plan", "exit 1", "/tmp/t.sh", sampleAnalysisOk,
  RunBehavior.completed "" "boom" 1⟩

/-- The result of `envExecFail` under the bash skill. -/
def execFailResult : PipelineResult :=
  { skill := "bash", interpreter_response := "plan", fabricator_response := "exit 1",
    script := "exit 1", shellcheck_passed := true, shellcheck_output := "",
    execution := some ⟨"", "boom", some 1, false⟩, error := none }

/-- The result of `envOk` under the bash skill. -/
def okResult : PipelineResult :=
  { skill := "bash", interpreter_response := "plan", fabricator_response := "echo hi",
    script := "echo hi", shellcheck_passed := true, shellcheck_output := "",
    execution := some ⟨"hi\n", "", some 0, false⟩, error := none }

/-- A skill whose executor has no command template. -/
def metaUnknownExec : SkillMeta := ⟨some "cobol", some ".sh", none⟩

/-- The result of `envOk` under the unknown-executor skill. -/
def unknownExecResult : PipelineResult :=
  { skill := "s", interpreter_response := "plan", fabricator_response := "echo hi",
    script := "echo hi", shellcheck_passed := true, shellcheck_output := "",
    execution := some ⟨"", "Unknown executor: cobol", some (-1), false⟩, error := none }

/-- A bash skill with shellcheck configured. -/
def metaShellcheck : SkillMeta := ⟨some "bash", some ".sh", some "shellcheck"⟩

/-- A run in which shellcheck is present and reports an error. -/
def envAnalysisFail : TaskEnv := ⟨"plan", "echo $x", "/tmp/t.sh", ⟨true, 1, "SC2086", ""⟩,
  RunBehavior.completed "" "" 0⟩

/-- The result of `envAnalysisFail` under the shellcheck skill. -/
def analysisFailResult : PipelineResult :=
  { skill := "bash", interpreter_response := "plan", fabricator_response := "echo $x",
    script := "echo $x", shellcheck_passed := false, shellcheck_output := "SC2086",
    execution := none, error := some "shellcheck reported errors — execution aborted." }

/-- C1 as stated is false: this run's execution exits with code 1 (a failed
execution) without timing out, yet the result's error field is unset, against
the claim that such a run never leaves error unset. -/
theorem C1_claim_counterexample :
    (execute_task "bash" metaBash 30 envExecFail false).1 = TaskReturn.dict execFailResult ∧
    execFailResult.execution =
      some { stdout := "", stderr := "boom", returncode := some 1, timed_out := false } ∧
    execFailResult.error = none ∧ ¬ (1 : Int) = 0 :=
  ⟨rfl, rfl, rfl, by decide⟩

/-- C1 (amended): in every pipeline result, error set implies execution is
null or timed out, and error is unset exactly when execution is set without a
timeout — a run whose execution exits nonzero without timing out counts as a
completion and leaves error unset. -/
theorem C1_amended_invariant (sn : String) (m : SkillMeta) (tmo : Nat) (env : TaskEnv)
    (r : PipelineResult) (evs : List Ev)
    (h : execute_task sn m tmo env false = (TaskReturn.dict r, evs)) :
    (∀ e, r.error = some e → r.execution = none ∨
        ∃ o, r.execution = some o ∧ o.timed_out = true) ∧
    (r.error = none ↔ ∃ o, r.execution = some o ∧ o.timed_out = false) := by
  by_cases h1 : env.fabResponse = ""
  · rw [execute_task_empty_fab sn m tmo env false h1] at h
    simp only [Bool.false_eq_true, if_false, Prod.mk.injEq, TaskReturn.dict.injEq] at h
    obtain ⟨hr, -⟩ := h
    subst hr
    simp
  · by_cases h2 :
        (_run_static_analysis m.static_analysis env.tmpPath env.analysisEnv).1 = false
    · rw [execute_task_analysis_fail sn m tmo env false h1 h2] at h
      simp only [Bool.false_eq_true, if_false, Prod.mk.injEq, TaskReturn.dict.injEq] at h
      obtain ⟨hr, -⟩ := h
      subst hr
      simp
    · have h2' :
          (_run_static_analysis m.static_analysis env.tmpPath env.analysisEnv).1 = true := by
        revert h2
        cases (_run_static_analysis m.static_analysis env.tmpPath env.analysisEnv).1 <;> simp
      rw [execute_task_exec_dict sn m tmo env h1 h2'] at h
      simp only [Prod.mk.injEq, TaskReturn.dict.injEq] at h
      obtain ⟨hr, -⟩ := h
      subst hr
      by_cases ht :
          (_execute_script (m.executor.getD "bash") env.tmpPath tmo
            env.runBehavior).timed_out = true <;>
        simp [ht]

/-- Witness for the amended C1 at a successful concrete run. -/
theorem C1_amended_invariant_witness :
    (∀ e, okResult.error = some e → okResult.execution = none ∨
        ∃ o, okResult.execution = some o ∧ o.timed_out = true) ∧
    (okResult.error = none ↔ ∃ o, okResult.execution = some o ∧ o.timed_out = false) :=
  C1_amended_invariant "bash" metaBash 30 envOk okResult
    [Ev.tempCreated ".sh", Ev.tempDeleted] rfl

/-- C2 as stated is false: the skill names the executor "cobol", which has no
command template, yet execute_task returns a result whose error field is
unset (the failure lives in execution.stderr with exit code -1 instead). -/
theorem C2_claim_counterexample :
    _EXECUTOR_CMDS.lookup "cobol" = none ∧
    (execute_task "s" metaUnknownExec 30 envOk false).1 = TaskReturn.dict unknownExecResult ∧
    unknownExecResult.error = none :=
  ⟨rfl, rfl, rfl⟩

/-- C2 (amended): empty-script, static-analysis and timeout failures are
surfaced inside the result's error field and are non-fatal; a skill naming an
executor absent from the command templates instead yields a result with error
unset whose execution field carries the sentinel outcome (exit code -1,
diagnostic naming the executor in stderr). -/
theorem C2_amended_error_surfacing :
    (∀ (sn : String) (m : SkillMeta) (tmo : Nat) (env : TaskEnv) (r : PipelineResult)
        (evs : List Ev),
        execute_task sn m tmo env false = (TaskReturn.dict r, evs) →
        env.fabResponse = "" →
        r.error = some "Fabricator returned an empty script.") ∧
    (∀ (sn : String) (m : SkillMeta) (tmo : Nat) (env : TaskEnv) (r : PipelineResult)
        (evs : List Ev),
        execute_task sn m tmo env false = (TaskReturn.dict r, evs) →
        ¬ env.fabResponse = "" →
        (_run_static_analysis m.static_analysis env.tmpPath env.analysisEnv).1 = false →
        r.error =
          some (pyStr m.static_analysis ++ " reported errors — execution aborted.")) ∧
    (∀ (sn : String) (m : SkillMeta) (tmo : Nat) (env : TaskEnv) (r : PipelineResult)
        (evs : List Ev),
        execute_task sn m tmo env false = (TaskReturn.dict r, evs) →
        ¬ env.fabResponse = "" →
        (_run_static_analysis m.static_analysis env.tmpPath env.analysisEnv).1 = true →
        (_execute_script (m.executor.getD "bash") env.tmpPath tmo
          env.runBehavior).timed_out = true →
        r.error = some ("Execution timed out after " ++ toString tmo ++ "s.")) ∧
    (∀ (sn : String) (m : SkillMeta) (tmo : Nat) (env : TaskEnv) (r : PipelineResult)
        (evs : List Ev),
        execute_task sn m tmo env false = (TaskReturn.dict r, evs) →
        ¬ env.fabResponse = "" →
        (_run_static_analysis m.static_analysis env.tmpPath env.analysisEnv).1 = true →
        _EXECUTOR_CMDS.lookup (m.executor.getD "bash") = none →
        r.error = none ∧
        r.execution = some
          { stdout := "",
            stderr := "Unknown executor: " ++ m.executor.getD "bash",
            returncode := some (-1), timed_out := false }) := by
  refine ⟨?_, ?_, ?_, ?_⟩
  · intro sn m tmo env r evs h hfab
    rw [execute_task_empty_fab sn m tmo env false hfab] at h
    simp only [Bool.false_eq_true, if_false, Prod.mk.injEq, TaskReturn.dict.injEq] at h
    obtain ⟨hr, -⟩ := h
    subst hr
    rfl
  · intro sn m tmo env r evs h hfab hsc
    rw [execute_task_analysis_fail sn m tmo env false hfab hsc] at h
    simp only [Bool.false_eq_true, if_false, Prod.mk.injEq, TaskReturn.dict.injEq] at h
    obtain ⟨hr, -⟩ := h
    subst hr
    rfl
  · intro sn m tmo env r evs h hfab hsc ht
    rw [execute_task_exec_dict sn m tmo env hfab hsc] at h
    simp only [Prod.mk.injEq, TaskReturn.dict.injEq] at h
    obtain ⟨hr, -⟩ := h
    subst hr
    simp [ht]
  · intro sn m tmo env r evs h hfab hsc hlk
    rw [execute_task_exec_dict sn m tmo env hfab hsc] at h
    simp only [Prod.mk.injEq, TaskReturn.dict.injEq] at h
    obtain ⟨hr, -⟩ := h
    subst hr
    have hx : _execute_script (m.executor.getD "bash") env.tmpPath tmo env.runBehavior =
        { stdout := "", stderr := "Unknown executor: " ++ m.executor.getD "bash",
          returncode := some (-1), timed_out := false } := by
      simp [_execute_script, hlk]
    simp [hx]

/-- Witness for the amended C2: the unknown-executor sentinel at a concrete
run. -/
theorem C2_amended_error_surfacing_witness :
    unknownExecResult.error = none ∧
    unknownExecResult.execution = some
      { stdout := "",
        stderr := "Unknown executor: " ++ metaUnknownExec.executor.getD "bash",
        returncode := some (-1), timed_out := false } :=
  C2_amended_error_surfacing.2.2.2 "s" metaUnknownExec 30 envOk unknownExecResult
    [Ev.tempCreated ".sh", Ev.tempDeleted] rfl (by decide) rfl rfl

/-- C4: when static analysis is configured, its binary is found and the tool
exits nonzero, the run aborts with the tool named in the error, execution
stays null and the temp file deletion event is on the trace; and on every run
of any shape, a created temp file is always deleted. -/
theorem C4_analysis_abort_cleanup :
    (∀ (sn : String) (m : SkillMeta) (tmo : Nat) (env : TaskEnv) (r : PipelineResult)
        (evs : List Ev) (t : String),
        execute_task sn m tmo env false = (TaskReturn.dict r, evs) →
        ¬ env.fabResponse = "" →
        m.static_analysis = some t →
        (_STATIC_ANALYSIS_CMDS.lookup t).isSome = true →
        env.analysisEnv.whichFound = true →
        ¬ env.analysisEnv.toolReturncode = 0 →
        r.error = some (t ++ " reported errors — execution aborted.") ∧
        r.execution = none ∧ Ev.tempDeleted ∈ evs) ∧
    (∀ (sn : String) (m : SkillMeta) (tmo : Nat) (env : TaskEnv) (oo : Bool)
        (ret : TaskReturn) (evs : List Ev) (suf : String),
        execute_task sn m tmo env oo = (ret, evs) →
        Ev.tempCreated suf ∈ evs → Ev.tempDeleted ∈ evs) := by
  refine ⟨?_, ?_⟩
  · intro sn m tmo env r evs t h hfab hms hlk hw hrc
    obtain ⟨c, hc⟩ : ∃ c, _STATIC_ANALYSIS_CMDS.lookup t = some c := by
      cases hl : _STATIC_ANALYSIS_CMDS.lookup t
      · rw [hl] at hlk; simp at hlk
      · exact ⟨_, rfl⟩
    obtain ⟨ht, -⟩ := static_lookup_eq t c hc
    have hsc :
        (_run_static_analysis m.static_analysis env.tmpPath env.analysisEnv).1 = false := by
      subst ht
      rw [hms]
      simp [_run_static_analysis, hw, hc, beq_eq_false_iff_ne, hrc]
    rw [execute_task_analysis_fail sn m tmo env false hfab hsc] at h
    simp only [Bool.false_eq_true, if_false, Prod.mk.injEq, TaskReturn.dict.injEq] at h
    obtain ⟨hr, hevs⟩ := h
    subst hr
    subst hevs
    refine ⟨?_, rfl, ?_⟩
    · rw [hms]
      rfl
    · simp
  · intro sn m tmo env oo ret evs suf h hmem
    have he := execute_task_events sn m tmo env oo
    rw [h] at he
    rcases he with he | he <;> simp only at he <;> subst he
    · simp at hmem
    · simp

/-- Witness for C4 at a concrete failing shellcheck run. -/
theorem C4_analysis_abort_cleanup_witness :
    analysisFailResult.error = some ("shellcheck" ++ " reported errors — execution aborted.") ∧
    analysisFailResult.execution = none ∧
    Ev.tempDeleted ∈ [Ev.tempCreated ".sh", Ev.tempDeleted] :=
  C4_analysis_abort_cleanup.1 "bash" metaShellcheck 30 envAnalysisFail analysisFailResult
    [Ev.tempCreated ".sh", Ev.tempDeleted] "shellcheck" rfl (by decide) rfl rfl rfl (by decide)

end MKBI
